import Mathlib

/-!
Shallow embedding of the episodic-control bridge `Env` in
`grutopia/core/gym_env.py`.

The bridge wraps an external `SimulatorRunner` and a `SimulatorRuntime`.
Python dictionaries are modelled as association lists with a lookup that
returns `Option`; a failed dictionary lookup in the Python code raises a
`KeyError`, modelled here as the `Except` error case.  Errors raised by
`ValueError(msg)` carry the exact formatted message string.  The external
space-resolution utility and the runner are modelled as parameters (a
function and a structure of functions): the bridge code never inspects
their internals, only their results.
-/

/-- A Python-style string-keyed dictionary lookup over an association list. -/
def dictGet {β : Type} : List (String × β) → String → Option β
  | [], _ => none
  | (k, v) :: rest, key => if key = k then some v else dictGet rest key

/-- Errors the bridge can raise: `ValueError(msg)` from validation,
`KeyError(key)` from dictionary lookups, and errors propagated from the
external space-resolution utility. -/
inductive PyError where
  | valueError (msg : String)
  | keyError (key : String)
  | spaceError (msg : String)
deriving DecidableEq

/-- Robot configuration: only the `name` field is read by the bridge. -/
structure RobotCfg where
  name : String
deriving DecidableEq

/-- One episode of the task configuration: its list of robot configs. -/
structure EpisodeCfg where
  robots : List RobotCfg
deriving DecidableEq

/-- The `task_config` part of the validated configuration: the task-type
string and the episode list. -/
structure TaskConfig where
  type : String
  episodes : List EpisodeCfg
deriving DecidableEq

/-- The `SimulatorRuntime` fields the bridge reads: `env_num` and the
parsed configuration. -/
structure SimulatorRuntime where
  env_num : Nat
  task_config : TaskConfig
deriving DecidableEq

/-- The task descriptor (`TaskRuntime`) returned by the runner's reset;
the bridge reads its `name`. -/
structure TaskRuntime where
  name : String
  task_idx : Nat
deriving DecidableEq

/-- Raw per-task, per-robot observation map returned by the runner. -/
def ObsMap (Obs : Type) := List (String × List (String × Obs))

/-- The external `SimulatorRunner`, modelled by the results of the calls
the bridge makes into it. -/
structure Runner (Obs Act : Type) where
  reset : Option String → ObsMap Obs × Option TaskRuntime
  step : List (String × List (String × Act)) → ObsMap Obs × List (String × Bool)
  get_obs : ObsMap Obs
  dt : Float
  current_tasks : List String

/-- An observation value as returned by the bridge: either the literal
empty dictionary default, or a slice taken from the runner's raw map. -/
inductive BridgeObs (Obs : Type) where
  | empty
  | fromRunner (o : Obs)
deriving DecidableEq

/-- Info maps returned by the bridge: empty, or carrying the task
descriptor under the well-known key. -/
def InfoMap := List (String × TaskRuntime)

/-- The constant `Env.RESET_INFO_TASK_RUNTIME`. -/
def RESET_INFO_TASK_RUNTIME : String := "task_runtime"

/-- The mutable bridge state after construction: `_robot_name` (always
assigned by a successful `_validate`), `_current_task_name`, and the two
spaces resolved at construction. -/
structure EnvState (Space : Type) where
  robot_name : String
  current_task_name : Option String
  action_space : Space
  observation_space : Space

/-- Message of the multi-environment `ValueError`. -/
def multiEnvMsg (n : Nat) : String :=
  "Only support single env now, but env num is " ++ toString n

/-- Message of the multi-agent (robot-count) `ValueError`. -/
def multiAgentMsg (k : Nat) : String :=
  "Only support single agent now, but episode requires " ++ toString k ++ " agents"

/-- Message of the heterogeneous-agent `ValueError`. -/
def heteroMsg : String :=
  "Only support single agent now, but episode requires multiple agents"

/-- Python string interpolation of a nullable string: `None` prints as
the literal string "None". -/
def pyFormatOpt : Option String → String
  | none => "None"
  | some s => s

/-- The episode loop of `Env._validate`: scans episodes in order,
threading the first-seen robot name; raises on a robot count other than
one, or on a name differing from the first-seen name. -/
def validateLoop : Option String → List EpisodeCfg → Except PyError (Option String)
  | robot_name, [] => .ok robot_name
  | robot_name, ep :: rest =>
    match ep.robots with
    | [r] =>
      match robot_name with
      | none => validateLoop (some r.name) rest
      | some n =>
        if n ≠ r.name then .error (.valueError heteroMsg)
        else validateLoop (some n) rest
    | _ => .error (.valueError (multiAgentMsg ep.robots.length))

/-- Embedding of `Env._validate`: rejects `env_num > 1`, runs the
episode loop, and returns the derived `_robot_name` string, formatted as
in `f'{robot_name}_{0}'`.  An error from the loop propagates unchanged,
as a raised exception does. -/
def SimulatorRuntime.validate (rt : SimulatorRuntime) : Except PyError String :=
  if rt.env_num > 1 then
    .error (.valueError (multiEnvMsg rt.env_num))
  else
    match validateLoop none rt.task_config.episodes with
    | .error e => .error e
    | .ok robot_name => .ok (pyFormatOpt robot_name ++ "_0")

/-- Embedding of `Env.__init__`: resolves the action space, then the
observation space, from the task-type string (each may fail with the
external utility's error), then runs `_validate`.  The order of these
three effects is the order of the Python constructor, and the first
failure propagates unchanged. -/
def Env.init {Space : Type} (getActionSpace getObservationSpace : String → Except PyError Space)
    (rt : SimulatorRuntime) : Except PyError (EnvState Space) :=
  match getActionSpace rt.task_config.type with
  | .error e => .error e
  | .ok action_space =>
    match getObservationSpace rt.task_config.type with
    | .error e => .error e
    | .ok observation_space =>
      match rt.validate with
      | .error e => .error e
      | .ok robot_name => .ok ⟨robot_name, none, action_space, observation_space⟩

/-- Result of `Env.reset`: the observation and the info map. -/
structure ResetResult (Obs : Type) where
  obs : BridgeObs Obs
  info : InfoMap

/-- Embedding of `Env.reset`: calls the runner's reset with the
remembered task name; if a task descriptor comes back, remembers its
name, records it in the info map and slices out the active robot's
observation; otherwise returns the empty defaults with the state
unchanged. -/
def Env.reset {Space Obs Act : Type} (runner : Runner Obs Act) (s : EnvState Space) :
    Except PyError (ResetResult Obs × EnvState Space) :=
  let rr := runner.reset s.current_task_name
  match rr.2 with
  | some task_runtime =>
    match dictGet rr.1 task_runtime.name with
    | none => .error (.keyError task_runtime.name)
    | some robot_obs =>
      match dictGet robot_obs s.robot_name with
      | none => .error (.keyError s.robot_name)
      | some o =>
        .ok (⟨.fromRunner o, [(RESET_INFO_TASK_RUNTIME, task_runtime)]⟩,
             { s with current_task_name := some task_runtime.name })
  | none => .ok (⟨.empty, []⟩, s)

/-- Result tuple of `Env.step`. -/
structure StepResult (Obs : Type) where
  obs : BridgeObs Obs
  reward : Float
  terminated : Bool
  truncated : Bool
  info : InfoMap

/-- Embedding of `Env.step`: if no task is active, returns the terminal
defaults without touching the runner; otherwise wraps the action into
the per-task per-robot map, calls the runner's step, and slices out the
observation and the terminated flag for the active task. -/
def Env.step {Space Obs Act : Type} (runner : Runner Obs Act) (s : EnvState Space)
    (action : Act) : Except PyError (StepResult Obs × EnvState Space) :=
  match s.current_task_name with
  | none => .ok (⟨.empty, 0.0, true, false, []⟩, s)
  | some task_name =>
    let sr := runner.step [(task_name, [(s.robot_name, action)])]
    match dictGet sr.1 task_name with
    | none => .error (.keyError task_name)
    | some robot_obs =>
      match dictGet robot_obs s.robot_name with
      | none => .error (.keyError s.robot_name)
      | some o =>
        match dictGet sr.2 task_name with
        | none => .error (.keyError task_name)
        | some term => .ok (⟨.fromRunner o, 0.0, term, false, []⟩, s)

/-- Embedding of `Env.get_observations`: empty when no task is active,
otherwise the active robot's slice of the runner's current observation
map. -/
def Env.get_observations {Space Obs Act : Type} (runner : Runner Obs Act)
    (s : EnvState Space) : Except PyError (BridgeObs Obs) :=
  match s.current_task_name with
  | none => .ok .empty
  | some task_name =>
    match dictGet runner.get_obs task_name with
    | none => .error (.keyError task_name)
    | some robot_obs =>
      match dictGet robot_obs s.robot_name with
      | none => .error (.keyError s.robot_name)
      | some o => .ok (.fromRunner o)

/-- Embedding of `Env.get_dt`: the runner's time step. -/
def Env.get_dt {Obs Act : Type} (runner : Runner Obs Act) : Float := runner.dt

/-- Embedding of `Env.finished`: true iff the runner's live-task collection is empty. -/
def Env.finished {Obs Act : Type} (runner : Runner Obs Act) : Bool :=
  runner.current_tasks.length == 0

/-- Embedding of `Env.render`: a no-op (`pass`); the bridge state is untouched. -/
def Env.render {Space : Type} (s : EnvState Space) : EnvState Space := s

/-- Embedding of `Env.close`: closes the external simulation app handle;
the bridge state itself is untouched. -/
def Env.close {Space : Type} (s : EnvState Space) : EnvState Space := s

/-! Concrete fixtures used by the counterexamples and witnesses below.
Each claim has its own fixtures so that removing one claim's theorems
never breaks another claim's proof. -/

/-- A space-resolution function that succeeds on every task type. -/
def okSpaceC1 : String → Except PyError String := fun _ => .ok "sp"

/-- A runtime with `env_num = 0` and one well-formed episode. -/
def rtC1 : SimulatorRuntime := ⟨0, ⟨"manipulation", [⟨[⟨"jetbot"⟩]⟩]⟩⟩

/-- A space-resolution function for the C1 amended witness. -/
def okSpaceC1w : String → Except PyError String := fun _ => .ok "sp"

/-- A runtime with `env_num = 2` and one well-formed episode. -/
def rtC1w : SimulatorRuntime := ⟨2, ⟨"manipulation", [⟨[⟨"jetbot"⟩]⟩]⟩⟩

/-- A runner whose reset yields task `T` with one observation for
robot `jetbot_0`. -/
def runnerC2 : Runner Nat Nat where
  reset := fun _ => ([("T", [("jetbot_0", 7)])], some ⟨"T", 0⟩)
  step := fun _ => ([], [])
  get_obs := []
  dt := 0.0
  current_tasks := ["T"]

/-- A freshly constructed bridge state for the C2 witness. -/
def sC2 : EnvState String := ⟨"jetbot_0", none, "sp", "sp"⟩

/-- A runner whose step yields an observation and a terminated flag for
task `T` and robot `jetbot_0`. -/
def runnerC3 : Runner Nat Nat where
  reset := fun _ => ([], none)
  step := fun _ => ([("T", [("jetbot_0", 9)])], [("T", true)])
  get_obs := []
  dt := 0.0
  current_tasks := ["T"]

/-- A bridge state with task `T` active, for the C3 witness. -/
def sC3 : EnvState String := ⟨"jetbot_0", some "T", "sp", "sp"⟩

/-- A runner for the C4 witness (its step result is irrelevant: the
claim shows it is never consulted). -/
def runnerC4 : Runner Nat Nat where
  reset := fun _ => ([], none)
  step := fun _ => ([("T", [("jetbot_0", 3)])], [("T", false)])
  get_obs := []
  dt := 0.0
  current_tasks := []

/-- A bridge state with no active task, for the C4 witness. -/
def sC4 : EnvState String := ⟨"jetbot_0", none, "sp", "sp"⟩

/-- A runner whose reset reports no available task (null descriptor). -/
def runnerC5 : Runner Nat Nat where
  reset := fun _ => ([("X", [("jetbot_0", 1)])], none)
  step := fun _ => ([], [])
  get_obs := []
  dt := 0.0
  current_tasks := []

/-- A bridge state still remembering a stale task name, for the C5
witness. -/
def sC5 : EnvState String := ⟨"jetbot_0", some "stale", "sp", "sp"⟩

/-- A space-resolution function that succeeds on every task type. -/
def okSpaceC6 : String → Except PyError String := fun _ => .ok "sp"

/-- A runtime whose third episode has two robots, but whose first two
episodes already name different robots. -/
def rtC6 : SimulatorRuntime :=
  ⟨1, ⟨"manipulation", [⟨[⟨"a"⟩]⟩, ⟨[⟨"b"⟩]⟩, ⟨[⟨"c"⟩, ⟨"d"⟩]⟩]⟩⟩

/-- A runtime whose second episode has two robots and whose first
episode is well formed, for the C6 amended witness (multi-agent part). -/
def rtC6w1 : SimulatorRuntime :=
  ⟨1, ⟨"manipulation", [⟨[⟨"a"⟩]⟩, ⟨[⟨"x"⟩, ⟨"y"⟩]⟩]⟩⟩

/-- A runtime whose two singleton episodes name different robots, for
the C6 amended witness (heterogeneous part). -/
def rtC6w2 : SimulatorRuntime :=
  ⟨1, ⟨"manipulation", [⟨[⟨"a"⟩]⟩, ⟨[⟨"b"⟩]⟩]⟩⟩

/-- A space-resolution function that succeeds on every task type. -/
def okSpaceC7 : String → Except PyError String := fun _ => .ok "sp"

/-- A runtime with two episodes both naming robot `jetbot`. -/
def rtC7 : SimulatorRuntime :=
  ⟨1, ⟨"manipulation", [⟨[⟨"jetbot"⟩]⟩, ⟨[⟨"jetbot"⟩]⟩]⟩⟩

/-- The state produced by constructing the bridge on `rtC7`. -/
def stC7 : EnvState String := ⟨"jetbot_0", none, "sp", "sp"⟩

/-- A runner for the C7 witness. -/
def runnerC7 : Runner Nat Nat where
  reset := fun _ => ([("T", [("jetbot_0", 5)])], some ⟨"T", 0⟩)
  step := fun _ => ([("T", [("jetbot_0", 6)])], [("T", false)])
  get_obs := []
  dt := 0.0
  current_tasks := ["T"]

/-- The state after the C7 witness reset: only the task name changed. -/
def stC7r : EnvState String := ⟨"jetbot_0", some "T", "sp", "sp"⟩

/-- A runner whose step reports the active task as terminated. -/
def runnerC8 : Runner Nat Nat where
  reset := fun _ => ([], none)
  step := fun _ => ([("T", [("jetbot_0", 9)])], [("T", true)])
  get_obs := []
  dt := 0.0
  current_tasks := ["T"]

/-- A bridge state with task `T` active, for the C8 witness. -/
def sC8 : EnvState String := ⟨"jetbot_0", some "T", "sp", "sp"⟩

/-- A space-resolution function that fails on every task type, standing
for the utility's unknown-task-type error. -/
def errSpaceC9 : String → Except PyError String :=
  fun t => .error (.spaceError ("unknown task type: " ++ t))

/-- A space-resolution function that succeeds, for the observation space
slot of the C9 witness. -/
def okSpaceC9 : String → Except PyError String := fun _ => .ok "sp"

/-- A runtime that violates validation (`env_num = 5`) and whose task
type the C9 space functions reject. -/
def rtC9 : SimulatorRuntime := ⟨5, ⟨"bogus", [⟨[⟨"jetbot"⟩]⟩]⟩⟩

/-- A space-resolution function that succeeds on every task type. -/
def okSpaceC10 : String → Except PyError String := fun _ => .ok "sp"

/-- A runtime with `env_num = 1` and an empty episode list. -/
def rtC10 : SimulatorRuntime := ⟨1, ⟨"manipulation", []⟩⟩

/-! Helper lemmas about the validation loop and state preservation. -/

/-- The loop rejects the first episode when its robot count is not one,
whatever name has been threaded so far. -/
theorem validateLoop_cons_not_single (acc : Option String) (ep : EpisodeCfg)
    (rest : List EpisodeCfg) (h : ep.robots.length ≠ 1) :
    validateLoop acc (ep :: rest) = .error (.valueError (multiAgentMsg ep.robots.length)) := by
  cases hb : ep.robots with
  | nil => simp [validateLoop, hb]
  | cons r rs =>
    cases rs with
    | nil => exact absurd (by rw [hb]; rfl) h
    | cons r2 rs2 => simp [validateLoop, hb]

/-- Scanning episodes that all carry the already-threaded name succeeds
and keeps that name. -/
theorem validateLoop_all_same (l : List EpisodeCfg) (n : String)
    (h : ∀ e ∈ l, ∃ r, e.robots = [r] ∧ r.name = n) :
    validateLoop (some n) l = .ok (some n) := by
  induction l with
  | nil => rfl
  | cons e rest ih =>
    obtain ⟨r, hr, hn⟩ := h e (List.mem_cons_self e rest)
    have htail := ih (fun x hx => h x (List.mem_cons_of_mem e hx))
    simp [validateLoop, hr, hn, htail]

/-- Scanning a nonempty episode list that uniformly names robot `n`
succeeds with name `n`. -/
theorem validateLoop_none_all_same (l : List EpisodeCfg) (n : String)
    (hne : l ≠ []) (h : ∀ e ∈ l, ∃ r, e.robots = [r] ∧ r.name = n) :
    validateLoop none l = .ok (some n) := by
  cases l with
  | nil => exact absurd rfl hne
  | cons e rest =>
    obtain ⟨r, hr, hn⟩ := h e (List.mem_cons_self e rest)
    have htail := validateLoop_all_same rest n (fun x hx => h x (List.mem_cons_of_mem e hx))
    simp [validateLoop, hr, hn, htail]

/-- If every episode before some offending episode `bad` is a singleton
carrying the threaded name, the loop fails on `bad` with the multi-agent
message naming the robot count of `bad`. -/
theorem validateLoop_multiAgent (pre : List EpisodeCfg) (n : String) (bad : EpisodeCfg)
    (post : List EpisodeCfg) (acc : Option String)
    (hacc : acc = none ∨ acc = some n)
    (hpre : ∀ e ∈ pre, ∃ r, e.robots = [r] ∧ r.name = n)
    (hbad : bad.robots.length ≠ 1) :
    validateLoop acc (pre ++ bad :: post) =
      .error (.valueError (multiAgentMsg bad.robots.length)) := by
  induction pre generalizing acc with
  | nil =>
    simp only [List.nil_append]
    exact validateLoop_cons_not_single acc bad post hbad
  | cons e pre ih =>
    obtain ⟨r, hr, hn⟩ := hpre e (List.mem_cons_self e pre)
    have htail := ih (some n) (Or.inr rfl) (fun x hx => hpre x (List.mem_cons_of_mem e hx))
    rcases hacc with h | h <;> subst h
    · rw [List.cons_append]
      simp [validateLoop, hr, hn, htail]
    · rw [List.cons_append]
      simp [validateLoop, hr, hn, htail]

/-- If all episodes are singletons and some episode names a robot other
than the threaded name `n`, the loop fails with the heterogeneous-agent
message. -/
theorem validateLoop_hetero (l : List EpisodeCfg) (n : String)
    (hall : ∀ e ∈ l, ∃ r, e.robots = [r])
    (hdiff : ∃ e ∈ l, ∃ r, e.robots = [r] ∧ r.name ≠ n) :
    validateLoop (some n) l = .error (.valueError heteroMsg) := by
  induction l with
  | nil => simp at hdiff
  | cons e rest ih =>
    obtain ⟨r, hr⟩ := hall e (List.mem_cons_self e rest)
    by_cases hrn : r.name = n
    · have hdiff2 : ∃ x ∈ rest, ∃ r2, x.robots = [r2] ∧ r2.name ≠ n := by
        obtain ⟨x, hx, r2, hx2, hx3⟩ := hdiff
        rcases List.mem_cons.mp hx with hxe | hxr
        · subst hxe
          rw [hr] at hx2
          injection hx2 with h4 h5
          subst h4
          exact absurd hrn hx3
        · exact ⟨x, hxr, r2, hx2, hx3⟩
      have htail := ih (fun x hx => hall x (List.mem_cons_of_mem e hx)) hdiff2
      simp [validateLoop, hr, hrn, htail]
    · have hne : n ≠ r.name := fun hc => hrn hc.symm
      simp [validateLoop, hr, hne]

/-- A successful `Env.reset` never changes the robot name. -/
theorem Env.reset_ok_robot_name {Space Obs Act : Type} (runner : Runner Obs Act)
    (s : EnvState Space) (res : ResetResult Obs) (s2 : EnvState Space)
    (h : Env.reset runner s = .ok (res, s2)) : s2.robot_name = s.robot_name := by
  unfold Env.reset at h
  dsimp only at h
  split at h
  · split at h
    · injection h
    · split at h
      · injection h
      · injection h with h1
        injection h1 with h1a h1b
        subst h1b
        rfl
  · injection h with h1
    injection h1 with h1a h1b
    subst h1b
    rfl

/-- A successful `Env.step` returns the bridge state unchanged. -/
theorem Env.step_ok_state {Space Obs Act : Type} (runner : Runner Obs Act)
    (s : EnvState Space) (a : Act) (res : StepResult Obs) (s2 : EnvState Space)
    (h : Env.step runner s a = .ok (res, s2)) : s2 = s := by
  unfold Env.step at h
  dsimp only at h
  split at h
  · injection h with h1
    injection h1 with h1a h1b
    exact h1b.symm
  · split at h
    · injection h
    · split at h
      · injection h
      · split at h
        · injection h
        · injection h with h1
          injection h1 with h1a h1b
          exact h1b.symm

/-! Claim theorems. -/

/-- Claim C2: when the runner's reset, called with the currently
remembered active task name, returns a non-null task descriptor and raw
observations containing a slice for that task and the active robot,
the bridge's reset returns that slice together with an info map binding
the well-known key `task_runtime` to the descriptor, and the remembered
active task name becomes the descriptor's name. -/
theorem claim_C2_reset_with_task {Space Obs Act : Type} (runner : Runner Obs Act)
    (s : EnvState Space) (origin_obs : ObsMap Obs) (tr : TaskRuntime)
    (robot_obs : List (String × Obs)) (o : Obs)
    (h1 : runner.reset s.current_task_name = (origin_obs, some tr))
    (h2 : dictGet origin_obs tr.name = some robot_obs)
    (h3 : dictGet robot_obs s.robot_name = some o) :
    Env.reset runner s =
      .ok (⟨.fromRunner o, [(RESET_INFO_TASK_RUNTIME, tr)]⟩,
           { s with current_task_name := some tr.name }) := by
  unfold Env.reset
  rw [h1]
  simp [h2, h3]

/-- Witness for claim C2 at a concrete runner and state: the returned
observation is the robot's slice, the info map carries the descriptor,
and the new state remembers task `T`. -/
theorem claim_C2_witness :
    Env.reset runnerC2 sC2 =
      .ok (⟨.fromRunner 7, [(RESET_INFO_TASK_RUNTIME, ⟨"T", 0⟩)]⟩,
           ⟨"jetbot_0", some "T", "sp", "sp"⟩) :=
  claim_C2_reset_with_task runnerC2 sC2 [("T", [("jetbot_0", 7)])] ⟨"T", 0⟩
    [("jetbot_0", 7)] 7 rfl rfl rfl

/-- Claim C3: with task `task_name` active, step forwards exactly the
singleton per-task per-robot action map to the runner's step and returns
the robot's observation slice, reward exactly `0.0`, the runner-reported
terminated flag for the task, truncated `false`, and an empty info
map. -/
theorem claim_C3_step_forwards {Space Obs Act : Type} (runner : Runner Obs Act)
    (s : EnvState Space) (task_name : String) (a : Act) (origin_obs : ObsMap Obs)
    (terminated_status : List (String × Bool)) (robot_obs : List (String × Obs))
    (o : Obs) (term : Bool)
    (hT : s.current_task_name = some task_name)
    (h1 : runner.step [(task_name, [(s.robot_name, a)])] = (origin_obs, terminated_status))
    (h2 : dictGet origin_obs task_name = some robot_obs)
    (h3 : dictGet robot_obs s.robot_name = some o)
    (h4 : dictGet terminated_status task_name = some term) :
    Env.step runner s a = .ok (⟨.fromRunner o, 0.0, term, false, []⟩, s) := by
  unfold Env.step
  rw [hT]
  dsimp only
  rw [h1]
  simp [h2, h3, h4]

/-- Witness for claim C3 at a concrete runner and state: the runner
reports termination for task `T` and the bridge returns the slice with
reward `0.0`, terminated `true`, truncated `false`, empty info. -/
theorem claim_C3_witness :
    Env.step runnerC3 sC3 4 = .ok (⟨.fromRunner 9, 0.0, true, false, []⟩, sC3) :=
  claim_C3_step_forwards runnerC3 sC3 "T" 4 [("T", [("jetbot_0", 9)])] [("T", true)]
    [("jetbot_0", 9)] 9 true rfl rfl rfl rfl rfl

/-- Claim C4: when no task is active, step returns the terminal defaults
(empty observation, reward `0.0`, terminated `true`, truncated `false`,
empty info) with the state unchanged.  The conclusion holds for every
runner, so the runner's step is never consulted. -/
theorem claim_C4_step_no_task {Space Obs Act : Type} (runner : Runner Obs Act)
    (s : EnvState Space) (a : Act) (h : s.current_task_name = none) :
    Env.step runner s a = .ok (⟨.empty, 0.0, true, false, []⟩, s) := by
  unfold Env.step
  rw [h]

/-- Witness for claim C4 at a concrete runner, state and action. -/
theorem claim_C4_witness :
    Env.step runnerC4 sC4 11 = .ok (⟨.empty, 0.0, true, false, []⟩, sC4) :=
  claim_C4_step_no_task runnerC4 sC4 11 rfl

/-- Claim C5: when the runner's reset returns a null task descriptor,
the bridge's reset returns the empty observation and empty info map, and
the returned state is exactly the input state, so the remembered active
task name keeps its previous (possibly stale) value. -/
theorem claim_C5_reset_no_task {Space Obs Act : Type} (runner : Runner Obs Act)
    (s : EnvState Space) (origin_obs : ObsMap Obs)
    (h : runner.reset s.current_task_name = (origin_obs, none)) :
    Env.reset runner s = .ok (⟨.empty, []⟩, s) := by
  unfold Env.reset
  rw [h]

/-- Witness for claim C5 at a concrete runner and a state remembering a
stale task name: the state comes back unchanged, stale name included. -/
theorem claim_C5_witness :
    Env.reset runnerC5 sC5 = .ok (⟨.empty, []⟩, sC5) :=
  claim_C5_reset_no_task runnerC5 sC5 [("X", [("jetbot_0", 1)])] rfl

/-- Claim C8: a successful step never modifies the remembered active
task name, whatever the runner's response (in particular even when the
task's terminated flag comes back true); indeed it returns the state
unchanged, so only reset ever assigns the task name. -/
theorem claim_C8_step_preserves_task_name {Space Obs Act : Type} (runner : Runner Obs Act)
    (s : EnvState Space) (a : Act) (res : StepResult Obs) (s2 : EnvState Space)
    (h : Env.step runner s a = .ok (res, s2)) :
    s2.current_task_name = s.current_task_name := by
  rw [Env.step_ok_state runner s a res s2 h]

/-- Witness for claim C8 at a concrete runner whose step reports the
active task as terminated: the remembered task name is preserved. -/
theorem claim_C8_witness :
    Env.step runnerC8 sC8 2 = .ok (⟨.fromRunner 9, 0.0, true, false, []⟩, sC8) ∧
    sC8.current_task_name = sC8.current_task_name :=
  ⟨rfl, claim_C8_step_preserves_task_name runnerC8 sC8 2
    ⟨.fromRunner 9, 0.0, true, false, []⟩ sC8 rfl⟩

/-- Counterexample to claim C1 as stated: a runtime with `env_num = 0`
(hence `env_num ≠ 1`) on which construction succeeds, raising no
multi-environment error at all — the code only rejects `env_num > 1`. -/
theorem claim_C1_counterexample :
    rtC1.env_num ≠ 1 ∧
    Env.init okSpaceC1 okSpaceC1 rtC1 = .ok ⟨"jetbot_0", none, "sp", "sp"⟩ :=
  ⟨by decide, rfl⟩

/-- Claim C1 (amended): for every runtime whose `env_num` is greater
than 1, construction (with both space resolutions succeeding) fails with
the multi-environment error naming the offending count; `env_num = 0` is
not rejected by this check. -/
theorem claim_C1_amended {Space : Type} (gA gO : String → Except PyError Space)
    (rt : SimulatorRuntime) (spA spO : Space)
    (hA : gA rt.task_config.type = .ok spA)
    (hO : gO rt.task_config.type = .ok spO)
    (h : rt.env_num > 1) :
    Env.init gA gO rt = .error (.valueError (multiEnvMsg rt.env_num)) := by
  unfold Env.init SimulatorRuntime.validate
  rw [hA, hO]
  simp [h]

/-- Witness for the amended claim C1 at `env_num = 2`: the error message
names the count 2. -/
theorem claim_C1_witness :
    Env.init okSpaceC1w okSpaceC1w rtC1w =
      .error (.valueError "Only support single env now, but env num is 2") :=
  claim_C1_amended okSpaceC1w okSpaceC1w rtC1w "sp" "sp" rfl rfl (by decide)

/-- Claim C9: the constructor resolves the action space from the
task-type string before running the validation checks, so when the space
resolution fails, its error is the one raised even on a runtime that
also violates a validation precondition. -/
theorem claim_C9_spaces_resolved_first {Space : Type}
    (gA gO : String → Except PyError Space) (rt : SimulatorRuntime) (e : PyError)
    (hA : gA rt.task_config.type = .error e)
    (_hV : ∃ e2, rt.validate = .error e2) :
    Env.init gA gO rt = .error e := by
  unfold Env.init
  rw [hA]

/-- Witness for claim C9 at a runtime with `env_num = 5` (validation
would reject it) and a failing space resolution: the space error wins. -/
theorem claim_C9_witness :
    Env.init errSpaceC9 okSpaceC9 rtC9 = .error (.spaceError "unknown task type: bogus") :=
  claim_C9_spaces_resolved_first errSpaceC9 okSpaceC9 rtC9
    (.spaceError "unknown task type: bogus") rfl ⟨.valueError (multiEnvMsg 5), rfl⟩

/-- Claim C10: on a runtime with `env_num = 1`, an empty episode list
and resolvable spaces, construction succeeds without any configuration
error and the derived robot id is the literal string "None_0", the
robot-name variable never having been assigned. -/
theorem claim_C10_empty_episodes {Space : Type}
    (gA gO : String → Except PyError Space) (rt : SimulatorRuntime) (spA spO : Space)
    (h1 : rt.env_num = 1) (h2 : rt.task_config.episodes = [])
    (hA : gA rt.task_config.type = .ok spA)
    (hO : gO rt.task_config.type = .ok spO) :
    Env.init gA gO rt = .ok ⟨"None_0", none, spA, spO⟩ := by
  unfold Env.init SimulatorRuntime.validate
  rw [hA, hO, h1, h2]
  simp [validateLoop, pyFormatOpt]

/-- Witness for claim C10 at a concrete empty-episode runtime. -/
theorem claim_C10_witness :
    Env.init okSpaceC10 okSpaceC10 rtC10 = .ok ⟨"None_0", none, "sp", "sp"⟩ :=
  claim_C10_empty_episodes okSpaceC10 okSpaceC10 rtC10 "sp" "sp" rfl rfl rfl rfl

/-- Counterexample to claim C6 as stated: `rtC6` contains an episode
with two robots (index 2), yet construction raises the
heterogeneous-agent error — the scan hits the name mismatch between the
first two singleton episodes before ever reaching the two-robot
episode — and that error is not the multi-agent error naming count 2. -/
theorem claim_C6_counterexample :
    (rtC6.task_config.episodes.get ⟨2, by decide⟩).robots.length = 2 ∧
    Env.init okSpaceC6 okSpaceC6 rtC6 = .error (.valueError heteroMsg) ∧
    PyError.valueError heteroMsg ≠ PyError.valueError (multiAgentMsg 2) :=
  ⟨rfl, rfl, by decide⟩

/-- Claim C6 (amended): validation scans episodes left to right under
the single-environment check, so (first part) an episode with a robot
count other than one triggers the multi-agent error naming its count
only when every earlier episode is a singleton consistently naming one
robot; and (second part) when all episodes are singletons and two of
them name different robots, validation fails with the
heterogeneous-agent error. -/
theorem claim_C6_amended :
    (∀ (rt : SimulatorRuntime) (n : String) (pre : List EpisodeCfg) (bad : EpisodeCfg)
        (post : List EpisodeCfg),
      rt.env_num ≤ 1 →
      rt.task_config.episodes = pre ++ bad :: post →
      (∀ e ∈ pre, ∃ r, e.robots = [r] ∧ r.name = n) →
      bad.robots.length ≠ 1 →
      rt.validate = .error (.valueError (multiAgentMsg bad.robots.length))) ∧
    (∀ (rt : SimulatorRuntime) (e0 : EpisodeCfg) (rest : List EpisodeCfg) (r0 : RobotCfg),
      rt.env_num ≤ 1 →
      rt.task_config.episodes = e0 :: rest →
      e0.robots = [r0] →
      (∀ e ∈ rt.task_config.episodes, ∃ r, e.robots = [r]) →
      (∃ ea ∈ rt.task_config.episodes, ∃ eb ∈ rt.task_config.episodes, ∃ ra rb,
        ea.robots = [ra] ∧ eb.robots = [rb] ∧ ra.name ≠ rb.name) →
      rt.validate = .error (.valueError heteroMsg)) := by
  constructor
  · intro rt n pre bad post henv heps hpre hbad
    unfold SimulatorRuntime.validate
    rw [if_neg (by omega : ¬ rt.env_num > 1), heps,
        validateLoop_multiAgent pre n bad post none (Or.inl rfl) hpre hbad]
  · intro rt e0 rest r0 henv heps h0 hall hdiff
    rw [heps] at hall hdiff
    have hx : ∃ x ∈ rest, ∃ r2, x.robots = [r2] ∧ r2.name ≠ r0.name := by
      obtain ⟨ea, hea, eb, heb, ra, rb, hra, hrb, hnab⟩ := hdiff
      by_cases hra0 : ra.name = r0.name
      · have hrb0 : rb.name ≠ r0.name := fun hc => hnab (by rw [hra0, hc])
        rcases List.mem_cons.mp heb with he | he
        · subst he
          rw [h0] at hrb
          injection hrb with h5 h6
          exact absurd (congrArg RobotCfg.name h5.symm) hrb0
        · exact ⟨eb, he, rb, hrb, hrb0⟩
      · rcases List.mem_cons.mp hea with he | he
        · subst he
          rw [h0] at hra
          injection hra with h5 h6
          exact absurd (congrArg RobotCfg.name h5.symm) hra0
        · exact ⟨ea, he, ra, hra, hra0⟩
    have htail := validateLoop_hetero rest r0.name
      (fun e he => hall e (List.mem_cons_of_mem e0 he)) hx
    unfold SimulatorRuntime.validate
    rw [if_neg (by omega : ¬ rt.env_num > 1), heps]
    simp [validateLoop, h0, htail]

/-- Witness for the amended claim C6: a runtime whose second episode has
two robots after a consistent first episode gets the multi-agent error
naming count 2, and a runtime with two singleton episodes naming
different robots gets the heterogeneous-agent error. -/
theorem claim_C6_witness :
    SimulatorRuntime.validate rtC6w1 =
      .error (.valueError "Only support single agent now, but episode requires 2 agents") ∧
    SimulatorRuntime.validate rtC6w2 =
      .error (.valueError "Only support single agent now, but episode requires multiple agents") :=
  ⟨claim_C6_amended.1 rtC6w1 "a" [⟨[⟨"a"⟩]⟩] ⟨[⟨"x"⟩, ⟨"y"⟩]⟩ [] (by decide) rfl
      (by
        intro e he
        rw [List.mem_singleton] at he
        subst he
        exact ⟨⟨"a"⟩, rfl, rfl⟩)
      (by decide),
   claim_C6_amended.2 rtC6w2 ⟨[⟨"a"⟩]⟩ [⟨[⟨"b"⟩]⟩] ⟨"a"⟩ (by decide) rfl rfl
      (by
        intro e he
        simp [rtC6w2] at he
        rcases he with h | h <;> subst h
        · exact ⟨⟨"a"⟩, rfl⟩
        · exact ⟨⟨"b"⟩, rfl⟩)
      ⟨⟨[⟨"a"⟩]⟩, by decide, ⟨[⟨"b"⟩]⟩, by decide, ⟨"a"⟩, ⟨"b"⟩, rfl, rfl, by decide⟩⟩

/-- Claim C7: when construction succeeds on a runtime whose (nonempty)
episodes all name the same robot `N`, the derived robot id is the string
`N ++ "_0"`, and no bridge operation changes it: a successful reset or
step preserves it, and render and close leave the state untouched
(`get_dt`, `finished` and `get_observations` return plain values and
take no state at all). -/
theorem claim_C7_robot_id_invariant {Space Obs Act : Type}
    (gA gO : String → Except PyError Space) (rt : SimulatorRuntime) (N : String)
    (st : EnvState Space) (runner : Runner Obs Act) (s s2 : EnvState Space)
    (res : ResetResult Obs) (a : Act) (res2 : StepResult Obs) (s3 : EnvState Space)
    (hne : rt.task_config.episodes ≠ [])
    (hall : ∀ e ∈ rt.task_config.episodes, ∃ r, e.robots = [r] ∧ r.name = N)
    (hinit : Env.init gA gO rt = .ok st) :
    st.robot_name = N ++ "_0" ∧
    (Env.reset runner s = .ok (res, s2) → s2.robot_name = s.robot_name) ∧
    (Env.step runner s a = .ok (res2, s3) → s3.robot_name = s.robot_name) ∧
    (Env.render s).robot_name = s.robot_name ∧
    (Env.close s).robot_name = s.robot_name := by
  refine ⟨?_, fun h => Env.reset_ok_robot_name runner s res s2 h,
          fun h => by rw [Env.step_ok_state runner s a res2 s3 h], rfl, rfl⟩
  unfold Env.init at hinit
  cases hA : gA rt.task_config.type with
  | error e => rw [hA] at hinit; simp at hinit
  | ok spA =>
    rw [hA] at hinit
    cases hO : gO rt.task_config.type with
    | error e => rw [hO] at hinit; simp at hinit
    | ok spO =>
      rw [hO] at hinit
      cases hV : rt.validate with
      | error e => rw [hV] at hinit; simp at hinit
      | ok v =>
        rw [hV] at hinit
        dsimp only at hinit
        injection hinit with h1
        unfold SimulatorRuntime.validate at hV
        have hL := validateLoop_none_all_same rt.task_config.episodes N hne hall
        split at hV
        · injection hV
        · rw [hL] at hV
          dsimp only at hV
          injection hV with h2
          subst h1
          rw [← h2]
          rfl

/-- Witness for claim C7 at a concrete runtime with two `jetbot`
episodes: construction yields robot id `jetbot_0` and reset, step,
render and close preserve the robot name on concrete states. -/
theorem claim_C7_witness :
    stC7.robot_name = "jetbot" ++ "_0" ∧
    (Env.reset runnerC7 stC7 =
        .ok (⟨.fromRunner 5, [(RESET_INFO_TASK_RUNTIME, ⟨"T", 0⟩)]⟩, stC7r) →
      stC7r.robot_name = stC7.robot_name) ∧
    (Env.step runnerC7 stC7 1 = .ok (⟨.empty, 0.0, true, false, []⟩, stC7) →
      stC7.robot_name = stC7.robot_name) ∧
    (Env.render stC7).robot_name = stC7.robot_name ∧
    (Env.close stC7).robot_name = stC7.robot_name :=
  claim_C7_robot_id_invariant okSpaceC7 okSpaceC7 rtC7 "jetbot" stC7 runnerC7
    stC7 stC7r ⟨.fromRunner 5, [(RESET_INFO_TASK_RUNTIME, ⟨"T", 0⟩)]⟩ 1
    ⟨.empty, 0.0, true, false, []⟩ stC7
    (by decide)
    (by
      intro e he
      simp [rtC7] at he
      subst he
      exact ⟨⟨"jetbot"⟩, rfl, rfl⟩)
    rfl
